import Mathlib

/-!
Verification development for the Ollama monitor's endpoint health-check engine
(`ollama_monitor.py`, `alerting.py`).

Modelling conventions, shared by all definitions below:
* Python dicts from endpoint name to counter are modelled as association
  lists `List (String × Nat)` with `lookup`/`setk` mirroring `d[k]` reads,
  membership tests, and `d[k] = v` stores.  A read `d[k] += 1` is modelled as
  `(lookup d k).getD 0 + 1`; on every state reachable through the
  `AlertManager` API the key is present at that point (the class initialises
  `total_checks` and `failure_counts` together), so the default is never the
  divergence point between model and code.
* Python floats are modelled as exact rationals `ℚ`; the source only ever
  divides counter values, so no rounding behaviour is observable in the
  properties proved here.
* `AlertManager.send_alert` (webhook delivery, an external collaborator) is
  modelled by *emission*: `check_and_alert` returns the list of alerts it
  hands to `send_alert`, in call order.  The human-readable `message` string
  is a rendering of the same data carried in the `details` payload and is not
  modelled separately.
-/

namespace OMon

/-- Dict read: `d[k]` as an optional value (`none` = key absent). -/
def lookup : List (String × Nat) → String → Option Nat
  | [], _ => none
  | (k, v) :: rest, key => if k = key then some v else lookup rest key

/-- Dict store: `d[k] = v` (overwrite if present, append if absent). -/
def setk : List (String × Nat) → String → Nat → List (String × Nat)
  | [], key, v => [(key, v)]
  | (k, w) :: rest, key, v =>
    if k = key then (k, v) :: rest else (k, w) :: setk rest key v

/-- Counter read with Python's reachable-state guarantee that the key exists:
`(lookup d k).getD 0`. -/
def getCount (d : List (String × Nat)) (k : String) : Nat :=
  (lookup d k).getD 0

/-- State of `alerting.AlertManager`: configuration fields and the two
per-endpoint counter dicts `failure_counts` and `total_checks`. -/
structure AlertManager where
  webhook_url : Option String
  alert_on_failure : Bool
  alert_threshold : ℚ
  min_failures : Nat
  failure_counts : List (String × Nat)
  total_checks : List (String × Nat)
  enabled : Bool
deriving Repr, DecidableEq

/-- `AlertManager.__init__` with the source's default arguments
(`alert_on_failure=True`, `alert_threshold=0.95`, `min_failures=3`,
empty counter dicts, `enabled = webhook_url is not None`). -/
def mkManager (webhook_url : Option String := none) (alert_on_failure : Bool := true)
    (alert_threshold : ℚ := 95/100) (min_failures : Nat := 3) : AlertManager :=
  { webhook_url := webhook_url
    alert_on_failure := alert_on_failure
    alert_threshold := alert_threshold
    min_failures := min_failures
    failure_counts := []
    total_checks := []
    enabled := webhook_url.isSome }

/-- Payload of one emitted alert: the `details` dict built by
`check_and_alert` for the consecutive-failure rule and the success-rate rule
respectively. -/
inductive AlertDetails where
  | failureDetails (consecutive_failures : Nat) (total_checks : Nat)
      (last_error : Option String)
  | rateDetails (success_rate : ℚ) (threshold : ℚ) (total_checks : Nat)
      (failures : Nat)
deriving Repr, DecidableEq

/-- One alert handed to `send_alert`: severity, endpoint, details payload. -/
structure Alert where
  severity : String
  endpoint : String
  details : AlertDetails
deriving Repr, DecidableEq

/-- `AlertManager.record_check`: lazily initialise both counters for a new
endpoint, then increment `total_checks` and, on failure, `failure_counts`. -/
def record_check (m : AlertManager) (e : String) (success : Bool) : AlertManager :=
  let m1 := if (lookup m.total_checks e).isNone then
      { m with total_checks := setk m.total_checks e 0,
               failure_counts := setk m.failure_counts e 0 }
    else m
  let m2 := { m1 with
    total_checks := setk m1.total_checks e (getCount m1.total_checks e + 1) }
  if success = false then
    { m2 with
      failure_counts := setk m2.failure_counts e (getCount m2.failure_counts e + 1) }
  else m2

/-- `AlertManager.check_and_alert`: early return when `alert_on_failure` is
off; otherwise record the check, emit an error-severity alert when the
(post-update) failure count has reached `min_failures` on a failing check,
emit a warning-severity alert when `total_checks >= 10` and the success rate
`1 - failure_counts/total_checks` is below `alert_threshold`, and finally
reset `failure_counts[endpoint]` to 0 on success.  Returns the new state and
the alerts emitted by this call, in emission order. -/
def check_and_alert (m : AlertManager) (e : String) (success : Bool)
    (error : Option String) : AlertManager × List Alert :=
  if m.alert_on_failure = false then (m, [])
  else
    let m1 := record_check m e success
    let fc := getCount m1.failure_counts e
    let tc := getCount m1.total_checks e
    let errA : List Alert :=
      if success = false ∧ m1.min_failures ≤ fc then
        [{ severity := "error", endpoint := e,
           details := .failureDetails fc tc error }]
      else []
    let warnA : List Alert :=
      if 10 ≤ tc ∧ 1 - (fc : ℚ) / (tc : ℚ) < m1.alert_threshold then
        [{ severity := "warning", endpoint := e,
           details := .rateDetails (1 - (fc : ℚ) / (tc : ℚ)) m1.alert_threshold tc fc }]
      else []
    let m2 := if success = true then
        { m1 with failure_counts := setk m1.failure_counts e 0 }
      else m1
    (m2, errA ++ warnA)

/-- One endpoint's row of `AlertManager.get_stats` (the success-rate string
`f"{rate:.1%}"` is modelled by the exact rational it renders). -/
structure EndpointStats where
  total_checks : Nat
  failures : Nat
  successes : Nat
  success_rate : ℚ
deriving Repr, DecidableEq

/-- `AlertManager.get_stats`, restricted to one endpoint: `none` when the
endpoint has no recorded checks, otherwise the row built from the two
counters. -/
def get_stats (m : AlertManager) (e : String) : Option EndpointStats :=
  match lookup m.total_checks e with
  | none => none
  | some total =>
    let failures := getCount m.failure_counts e
    some { total_checks := total
           failures := failures
           successes := total - failures
           success_rate := if 0 < total then 1 - (failures : ℚ) / (total : ℚ) else 1 }

theorem lookup_setk_self (d : List (String × Nat)) (k : String) (v : Nat) :
    lookup (setk d k v) k = some v := by
  induction d with
  | nil => simp [setk, lookup]
  | cons hd tl ih =>
    by_cases h : hd.1 = k
    · simp [setk, h, lookup]
    · simp [setk, h, lookup, ih]

theorem lookup_setk_ne (d : List (String × Nat)) (k k' : String) (v : Nat)
    (h : k' ≠ k) : lookup (setk d k v) k' = lookup d k' := by
  have h2 : ¬ k = k' := fun hh => h hh.symm
  induction d with
  | nil => simp [setk, lookup, h2]
  | cons hd tl ih =>
    by_cases hk : hd.1 = k
    · simp [setk, hk, lookup, h2]
    · simp [setk, hk, lookup, ih]

/-- The alerts of severity `"error"` among an emission list. -/
def errorAlerts (l : List Alert) : List Alert :=
  l.filter (fun a => a.severity == "error")

/-- The alerts of severity `"warning"` among an emission list. -/
def warningAlerts (l : List Alert) : List Alert :=
  l.filter (fun a => a.severity == "warning")

theorem record_alert_on (m : AlertManager) (e : String) (s : Bool) :
    (record_check m e s).alert_on_failure = m.alert_on_failure := by
  simp only [record_check]
  split_ifs <;> rfl

theorem record_threshold (m : AlertManager) (e : String) (s : Bool) :
    (record_check m e s).alert_threshold = m.alert_threshold := by
  simp only [record_check]
  split_ifs <;> rfl

theorem record_minf (m : AlertManager) (e : String) (s : Bool) :
    (record_check m e s).min_failures = m.min_failures := by
  simp only [record_check]
  split_ifs <;> rfl

/-- The class invariant of `AlertManager` at one endpoint: `record_check`
initialises `total_checks` and `failure_counts` together, so a key absent
from `total_checks` is absent from `failure_counts` as well.  (On states
violating it, the Python code would raise `KeyError` where the model reads a
default; all reachable states satisfy it.) -/
def WFat (m : AlertManager) (e : String) : Prop :=
  lookup m.total_checks e = none → lookup m.failure_counts e = none

theorem total_record (m : AlertManager) (e : String) (s : Bool) :
    lookup (record_check m e s).total_checks e = some (getCount m.total_checks e + 1) := by
  simp only [record_check]
  split_ifs with h1 h2 <;>
    simp_all [getCount, lookup_setk_self, Option.isNone_iff_eq_none]

theorem total_count_record (m : AlertManager) (e : String) (s : Bool) :
    getCount (record_check m e s).total_checks e = getCount m.total_checks e + 1 := by
  simp [getCount, total_record]

theorem fail_record (m : AlertManager) (e : String) (s : Bool) (hw : WFat m e) :
    getCount (record_check m e s).failure_counts e
      = getCount m.failure_counts e + (if s = false then 1 else 0) := by
  simp only [record_check]
  split_ifs with h1 h2 <;>
    simp_all [WFat, getCount, lookup_setk_self, Option.isNone_iff_eq_none]

theorem WFat_record (m : AlertManager) (e : String) (s : Bool) :
    WFat (record_check m e s) e := by
  intro hnone
  rw [total_record] at hnone
  exact absurd hnone (by simp)

theorem record_frame (m : AlertManager) (e e2 : String) (s : Bool) (h : e2 ≠ e) :
    lookup (record_check m e s).total_checks e2 = lookup m.total_checks e2 ∧
    lookup (record_check m e s).failure_counts e2 = lookup m.failure_counts e2 := by
  simp only [record_check]
  split_ifs with h1 h2 <;> simp_all [lookup_setk_ne _ _ _ _ h]

theorem caa_alert_on (m : AlertManager) (e : String) (s : Bool) (err : Option String) :
    (check_and_alert m e s err).1.alert_on_failure = m.alert_on_failure := by
  simp only [check_and_alert]
  split_ifs <;> simp [record_alert_on]

theorem caa_threshold (m : AlertManager) (e : String) (s : Bool) (err : Option String) :
    (check_and_alert m e s err).1.alert_threshold = m.alert_threshold := by
  simp only [check_and_alert]
  split_ifs <;> simp [record_threshold]

theorem caa_minf (m : AlertManager) (e : String) (s : Bool) (err : Option String) :
    (check_and_alert m e s err).1.min_failures = m.min_failures := by
  simp only [check_and_alert]
  split_ifs <;> simp [record_minf]

theorem caa_fail_count (m : AlertManager) (e : String) (s : Bool) (err : Option String)
    (h : m.alert_on_failure = true) (hw : WFat m e) :
    getCount (check_and_alert m e s err).1.failure_counts e =
      if s = true then 0 else getCount m.failure_counts e + 1 := by
  cases s with
  | true => simp [check_and_alert, h, getCount, lookup_setk_self]
  | false => simp [check_and_alert, h, fail_record m e false hw]

theorem caa_total_lookup (m : AlertManager) (e : String) (s : Bool) (err : Option String)
    (h : m.alert_on_failure = true) :
    lookup (check_and_alert m e s err).1.total_checks e =
      some (getCount m.total_checks e + 1) := by
  cases s with
  | true => simp [check_and_alert, h, total_record]
  | false => simp [check_and_alert, h, total_record]

theorem caa_total_count (m : AlertManager) (e : String) (s : Bool) (err : Option String)
    (h : m.alert_on_failure = true) :
    getCount (check_and_alert m e s err).1.total_checks e =
      getCount m.total_checks e + 1 := by
  simp [getCount, caa_total_lookup m e s err h]

theorem WFat_caa (m : AlertManager) (e : String) (s : Bool) (err : Option String)
    (hw : WFat m e) : WFat (check_and_alert m e s err).1 e := by
  cases hb : m.alert_on_failure with
  | false => simpa [check_and_alert, hb] using hw
  | true =>
    intro hnone
    rw [caa_total_lookup m e s err hb] at hnone
    exact absurd hnone (by simp)

theorem caa_frame (m : AlertManager) (e e2 : String) (s : Bool) (err : Option String)
    (h : e2 ≠ e) :
    lookup (check_and_alert m e s err).1.total_checks e2 = lookup m.total_checks e2 ∧
    lookup (check_and_alert m e s err).1.failure_counts e2 = lookup m.failure_counts e2 := by
  simp only [check_and_alert]
  split_ifs <;>
    simp_all [lookup_setk_ne _ _ _ _ h, record_frame m e e2 _ h]

theorem caa_error_alerts (m : AlertManager) (e : String) (s : Bool) (err : Option String)
    (h : m.alert_on_failure = true) (hw : WFat m e) :
    errorAlerts (check_and_alert m e s err).2 =
      if s = false ∧ m.min_failures ≤ getCount m.failure_counts e + 1 then
        [{ severity := "error", endpoint := e,
           details := .failureDetails (getCount m.failure_counts e + 1)
             (getCount m.total_checks e + 1) err }]
      else [] := by
  cases s with
  | true =>
    simp only [check_and_alert, h]
    simp only [errorAlerts, List.filter_append]
    split_ifs <;> simp_all [List.filter]
  | false =>
    simp only [check_and_alert, h]
    rw [fail_record m e false hw, total_count_record, record_minf]
    simp only [errorAlerts, List.filter_append]
    split_ifs <;> simp_all [List.filter]

theorem caa_warning_alerts (m : AlertManager) (e : String) (s : Bool) (err : Option String)
    (h : m.alert_on_failure = true) (hw : WFat m e) :
    warningAlerts (check_and_alert m e s err).2 =
      if 10 ≤ getCount m.total_checks e + 1 ∧
          1 - ((getCount m.failure_counts e + (if s = false then 1 else 0) : Nat) : ℚ) /
            ((getCount m.total_checks e + 1 : Nat) : ℚ) < m.alert_threshold then
        [{ severity := "warning", endpoint := e,
           details := .rateDetails
             (1 - ((getCount m.failure_counts e + (if s = false then 1 else 0) : Nat) : ℚ) /
               ((getCount m.total_checks e + 1 : Nat) : ℚ))
             m.alert_threshold (getCount m.total_checks e + 1)
             (getCount m.failure_counts e + (if s = false then 1 else 0)) }]
      else [] := by
  cases s with
  | true =>
    simp only [check_and_alert, h]
    rw [fail_record m e true hw, total_count_record, record_threshold]
    simp only [warningAlerts, List.filter_append]
    split_ifs <;> simp_all [List.filter]
  | false =>
    simp only [check_and_alert, h]
    rw [fail_record m e false hw, total_count_record, record_threshold]
    simp only [warningAlerts, List.filter_append]
    split_ifs <;> simp_all [List.filter]

/-- Run a sequence of `check_and_alert` calls for one endpoint; returns the
final manager state together with the list of per-call emission lists. -/
def caaSteps (m : AlertManager) (e : String) :
    List (Bool × Option String) → AlertManager × List (List Alert)
  | [] => (m, [])
  | ev :: rest =>
    let r := check_and_alert m e ev.1 ev.2
    let t := caaSteps r.1 e rest
    (t.1, r.2 :: t.2)

/-- An `AlertManager` built with the source defaults and alerting on failure
disabled by configuration (`alert_on_failure=False`). -/
def disabledManager : AlertManager := mkManager none false (95/100) 3

/-- An `AlertManager` built with all source defaults
(`alert_on_failure=True`, `alert_threshold=0.95`, `min_failures=3`). -/
def freshManager : AlertManager := mkManager

/-- C9 counterexample: with `alert_on_failure=False`, `check_and_alert` on a
failing check emits no alert but also leaves the counters untouched —
`total_checks` stays empty and `get_stats` reports nothing, refuting the
claim that the counters are still updated by the call. -/
theorem check_and_alert_disabled_skips_bookkeeping_cex :
    (check_and_alert disabledManager "e" false (some "boom")).2 = [] ∧
    (check_and_alert disabledManager "e" false (some "boom")).1.total_checks = [] ∧
    (check_and_alert disabledManager "e" false (some "boom")).1.failure_counts = [] ∧
    get_stats (check_and_alert disabledManager "e" false (some "boom")).1 "e" = none := by
  refine ⟨rfl, rfl, rfl, rfl⟩

/-- C9 amended: when alerting on failure is disabled, `check_and_alert`
returns immediately — no alert is emitted and no counter is updated (the
early return precedes the bookkeeping); counters are updated only when
`record_check` is invoked independently, in which case `total_checks`
increments and `failure_counts` increments exactly on failures. -/
theorem check_and_alert_disabled_noop (m : AlertManager) (e : String) (s : Bool)
    (err : Option String) (hoff : m.alert_on_failure = false) (hw : WFat m e) :
    check_and_alert m e s err = (m, []) ∧
    getCount (record_check m e s).total_checks e = getCount m.total_checks e + 1 ∧
    getCount (record_check m e s).failure_counts e =
      getCount m.failure_counts e + (if s = false then 1 else 0) := by
  exact ⟨by simp [check_and_alert, hoff], total_count_record m e s, fail_record m e s hw⟩

/-- C9 witness: the amended theorem applied to the concrete disabled manager. -/
theorem check_and_alert_disabled_noop_witness :
    check_and_alert disabledManager "x" true none = (disabledManager, []) ∧
    getCount (record_check disabledManager "x" true).total_checks "x" =
      getCount disabledManager.total_checks "x" + 1 ∧
    getCount (record_check disabledManager "x" true).failure_counts "x" =
      getCount disabledManager.failure_counts "x" + (if true = false then 1 else 0) :=
  check_and_alert_disabled_noop disabledManager "x" true none rfl (fun h => h)

/-- The manager state after recording one failing check for `"e"` on a fresh
default manager. -/
def oneFailureState : AlertManager := (check_and_alert freshManager "e" false none).1

/-- C1 counterexample: after one failure, `get_stats` reports 1 failure for
`"e"`; a subsequent success recorded through `check_and_alert` resets the
single per-endpoint failure counter, so `get_stats` then reports 0 failures
(and a 100% success rate), refuting the claim that the total-failures
observable through `get_stats` is left intact by a success. -/
theorem success_resets_observed_failure_total_cex :
    (get_stats oneFailureState "e").map (fun st => st.failures) = some 1 ∧
    (get_stats (check_and_alert oneFailureState "e" true none).1 "e").map
      (fun st => st.failures) = some 0 ∧
    ¬ (get_stats (check_and_alert oneFailureState "e" true none).1 "e").map
      (fun st => st.failures) = some 1 := by
  refine ⟨by decide, by decide, by decide⟩

/-- C1 amended: recording a success via `check_and_alert` resets the
endpoint's failure counter to 0 and increments `total_checks` by one, leaving
every other endpoint's counters unchanged; because the code keeps a single
per-endpoint failure counter, the failure total observable through
`get_stats` is reset to 0 as well (not left intact). -/
theorem caa_success_reset (m : AlertManager) (e : String) (err : Option String)
    (hon : m.alert_on_failure = true) (hw : WFat m e) :
    getCount (check_and_alert m e true err).1.failure_counts e = 0 ∧
    getCount (check_and_alert m e true err).1.total_checks e =
      getCount m.total_checks e + 1 ∧
    (get_stats (check_and_alert m e true err).1 e).map (fun st => st.failures) = some 0 ∧
    ∀ e2, e2 ≠ e →
      lookup (check_and_alert m e true err).1.total_checks e2 = lookup m.total_checks e2 ∧
      lookup (check_and_alert m e true err).1.failure_counts e2 = lookup m.failure_counts e2 := by
  have hf : getCount (check_and_alert m e true err).1.failure_counts e = 0 := by
    simpa using caa_fail_count m e true err hon hw
  refine ⟨hf, caa_total_count m e true err hon, ?_, fun e2 h2 => caa_frame m e e2 true err h2⟩
  rw [get_stats, caa_total_lookup m e true err hon]
  simp [hf]

/-- C1 witness: the amended theorem applied to a fresh default manager. -/
theorem caa_success_reset_witness :
    getCount (check_and_alert freshManager "e" true none).1.failure_counts "e" = 0 ∧
    getCount (check_and_alert freshManager "e" true none).1.total_checks "e" =
      getCount freshManager.total_checks "e" + 1 ∧
    (get_stats (check_and_alert freshManager "e" true none).1 "e").map
      (fun st => st.failures) = some 0 ∧
    ∀ e2, e2 ≠ "e" →
      lookup (check_and_alert freshManager "e" true none).1.total_checks e2 =
        lookup freshManager.total_checks e2 ∧
      lookup (check_and_alert freshManager "e" true none).1.failure_counts e2 =
        lookup freshManager.failure_counts e2 :=
  caa_success_reset freshManager "e" none rfl (fun h => h)

/-- C2: with `min_failures=3` and a consecutive-failure count of 0, the third
consecutive failure emits exactly one error-severity alert (carrying the
consecutive count 3, the running total of checks, and the error description),
a fourth consecutive failure emits another (the rule re-fires, it is not
edge-triggered), and an interleaved success resets the counter so the next
two failures emit no error alert. -/
theorem min_failures_rule_third_fourth_and_reset
    (m : AlertManager) (e : String) (err : Option String)
    (hmf : m.min_failures = 3) (hon : m.alert_on_failure = true)
    (hw : WFat m e) (h0 : getCount m.failure_counts e = 0) :
    (caaSteps m e [(false, err), (false, err), (false, err), (false, err)]).2.map
        errorAlerts =
      [[], [],
       [{ severity := "error", endpoint := e,
          details := .failureDetails 3 (getCount m.total_checks e + 3) err }],
       [{ severity := "error", endpoint := e,
          details := .failureDetails 4 (getCount m.total_checks e + 4) err }]] ∧
    (caaSteps m e
        [(false, err), (false, err), (false, err), (true, none), (false, err),
         (false, err)]).2.map errorAlerts =
      [[], [],
       [{ severity := "error", endpoint := e,
          details := .failureDetails 3 (getCount m.total_checks e + 3) err }],
       [], [], []] := by
  have hw1 := WFat_caa m e false err hw
  have hon1 : (check_and_alert m e false err).1.alert_on_failure = true := by
    rw [caa_alert_on]; exact hon
  have hmf1 : (check_and_alert m e false err).1.min_failures = 3 := by
    rw [caa_minf]; exact hmf
  have hf1 : getCount (check_and_alert m e false err).1.failure_counts e = 1 := by
    rw [caa_fail_count m e false err hon hw]; simp [h0]
  have ht1 : getCount (check_and_alert m e false err).1.total_checks e =
      getCount m.total_checks e + 1 := caa_total_count m e false err hon
  have hw2 := WFat_caa _ e false err hw1
  have hon2 : (check_and_alert (check_and_alert m e false err).1 e false err).1.alert_on_failure
      = true := by rw [caa_alert_on]; exact hon1
  have hmf2 : (check_and_alert (check_and_alert m e false err).1 e false err).1.min_failures
      = 3 := by rw [caa_minf]; exact hmf1
  have hf2 : getCount (check_and_alert (check_and_alert m e false err).1 e false
      err).1.failure_counts e = 2 := by
    rw [caa_fail_count _ e false err hon1 hw1]; simp [hf1]
  have ht2 : getCount (check_and_alert (check_and_alert m e false err).1 e false
      err).1.total_checks e = getCount m.total_checks e + 2 := by
    rw [caa_total_count _ e false err hon1, ht1]
  have hw3 := WFat_caa _ e false err hw2
  have hon3 : (check_and_alert (check_and_alert (check_and_alert m e false err).1 e false
      err).1 e false err).1.alert_on_failure = true := by rw [caa_alert_on]; exact hon2
  have hmf3 : (check_and_alert (check_and_alert (check_and_alert m e false err).1 e false
      err).1 e false err).1.min_failures = 3 := by rw [caa_minf]; exact hmf2
  have hf3 : getCount (check_and_alert (check_and_alert (check_and_alert m e false
      err).1 e false err).1 e false err).1.failure_counts e = 3 := by
    rw [caa_fail_count _ e false err hon2 hw2]; simp [hf2]
  have ht3 : getCount (check_and_alert (check_and_alert (check_and_alert m e false
      err).1 e false err).1 e false err).1.total_checks e =
      getCount m.total_checks e + 3 := by
    rw [caa_total_count _ e false err hon2, ht2]
  have a1 : errorAlerts (check_and_alert m e false err).2 = [] := by
    rw [caa_error_alerts m e false err hon hw]; simp [h0, hmf]
  have a2 : errorAlerts (check_and_alert (check_and_alert m e false err).1 e false
      err).2 = [] := by
    rw [caa_error_alerts _ e false err hon1 hw1]; simp [hf1, hmf1]
  have a3 : errorAlerts (check_and_alert (check_and_alert (check_and_alert m e false
      err).1 e false err).1 e false err).2 =
      [{ severity := "error", endpoint := e,
         details := .failureDetails 3 (getCount m.total_checks e + 3) err }] := by
    rw [caa_error_alerts _ e false err hon2 hw2]; simp [hf2, hmf2, ht2]
  have a4 : errorAlerts (check_and_alert (check_and_alert (check_and_alert
      (check_and_alert m e false err).1 e false err).1 e false err).1 e false err).2 =
      [{ severity := "error", endpoint := e,
         details := .failureDetails 4 (getCount m.total_checks e + 4) err }] := by
    rw [caa_error_alerts _ e false err hon3 hw3]; simp [hf3, hmf3, ht3]
  have hwS := WFat_caa _ e true none hw3
  have honS : (check_and_alert (check_and_alert (check_and_alert (check_and_alert m e
      false err).1 e false err).1 e false err).1 e true none).1.alert_on_failure = true := by
    rw [caa_alert_on]; exact hon3
  have hmfS : (check_and_alert (check_and_alert (check_and_alert (check_and_alert m e
      false err).1 e false err).1 e false err).1 e true none).1.min_failures = 3 := by
    rw [caa_minf]; exact hmf3
  have hfS : getCount (check_and_alert (check_and_alert (check_and_alert
      (check_and_alert m e false err).1 e false err).1 e false err).1 e true
      none).1.failure_counts e = 0 := by
    rw [caa_fail_count _ e true none hon3 hw3]; simp
  have aS : errorAlerts (check_and_alert (check_and_alert (check_and_alert
      (check_and_alert m e false err).1 e false err).1 e false err).1 e true none).2
      = [] := by
    rw [caa_error_alerts _ e true none hon3 hw3]; simp
  have hw5 := WFat_caa _ e false err hwS
  have hon5 : (check_and_alert (check_and_alert (check_and_alert (check_and_alert
      (check_and_alert m e false err).1 e false err).1 e false err).1 e true none).1 e
      false err).1.alert_on_failure = true := by rw [caa_alert_on]; exact honS
  have hmf5 : (check_and_alert (check_and_alert (check_and_alert (check_and_alert
      (check_and_alert m e false err).1 e false err).1 e false err).1 e true none).1 e
      false err).1.min_failures = 3 := by rw [caa_minf]; exact hmfS
  have hf5 : getCount (check_and_alert (check_and_alert (check_and_alert
      (check_and_alert (check_and_alert m e false err).1 e false err).1 e false
      err).1 e true none).1 e false err).1.failure_counts e = 1 := by
    rw [caa_fail_count _ e false err honS hwS]; simp [hfS]
  have a5 : errorAlerts (check_and_alert (check_and_alert (check_and_alert
      (check_and_alert (check_and_alert m e false err).1 e false err).1 e false
      err).1 e true none).1 e false err).2 = [] := by
    rw [caa_error_alerts _ e false err honS hwS]; simp [hfS, hmfS]
  have a6 : errorAlerts (check_and_alert (check_and_alert (check_and_alert
      (check_and_alert (check_and_alert (check_and_alert m e false err).1 e false
      err).1 e false err).1 e true none).1 e false err).1 e false err).2 = [] := by
    rw [caa_error_alerts _ e false err hon5 hw5]; simp [hf5, hmf5]
  constructor
  · simp only [caaSteps, List.map_cons, List.map_nil, List.cons.injEq, and_true]
    exact ⟨a1, a2, a3, a4⟩
  · simp only [caaSteps, List.map_cons, List.map_nil, List.cons.injEq, and_true]
    exact ⟨a1, a2, a3, aS, a5, a6⟩

/-- C2 witness: the theorem applied to a fresh default manager. -/
theorem min_failures_rule_third_fourth_and_reset_witness :
    (caaSteps freshManager "e" [(false, some "x"), (false, some "x"), (false, some "x"),
        (false, some "x")]).2.map errorAlerts =
      [[], [],
       [{ severity := "error", endpoint := "e",
          details := .failureDetails 3 (getCount freshManager.total_checks "e" + 3)
            (some "x") }],
       [{ severity := "error", endpoint := "e",
          details := .failureDetails 4 (getCount freshManager.total_checks "e" + 4)
            (some "x") }]] ∧
    (caaSteps freshManager "e"
        [(false, some "x"), (false, some "x"), (false, some "x"), (true, none),
         (false, some "x"), (false, some "x")]).2.map errorAlerts =
      [[], [],
       [{ severity := "error", endpoint := "e",
          details := .failureDetails 3 (getCount freshManager.total_checks "e" + 3)
            (some "x") }],
       [], [], []] :=
  min_failures_rule_third_fourth_and_reset freshManager "e" (some "x") rfl rfl
    (fun h => h) rfl

/-- Specification-side replay of the success-rate rule along a run: for each
call, the flag says whether that call emits a warning-severity alert
(`total_checks >= 10` and post-update rate below `th`), with the counters
evolving as `check_and_alert` evolves them. -/
def warnFlags (th : ℚ) (fc tc : Nat) : List (Bool × Option String) → List Bool
  | [] => []
  | ev :: rest =>
    decide (10 ≤ tc + 1 ∧
        1 - ((fc + (if ev.1 = false then 1 else 0) : Nat) : ℚ) /
          ((tc + 1 : Nat) : ℚ) < th) ::
      warnFlags th (if ev.1 = true then 0 else fc + (if ev.1 = false then 1 else 0))
        (tc + 1) rest

/-- The same replay with the default threshold 0.95, phrased in natural
numbers only (`rate < 0.95` becomes `tc < 20 * fc`), so runs evaluate inside
the kernel. -/
def warnFlagsNat (fc tc : Nat) : List Bool → List Bool
  | [] => []
  | s :: rest =>
    decide (10 ≤ tc + 1 ∧ tc + 1 < 20 * (fc + (if s = false then 1 else 0))) ::
      warnFlagsNat (if s = true then 0 else fc + (if s = false then 1 else 0))
        (tc + 1) rest

theorem not_isEmpty_ite {α : Type} {P : Prop} [Decidable P] (l : List α)
    (hl : l ≠ []) : (!(if P then l else ([] : List α)).isEmpty) = decide P := by
  split_ifs with h
  · rw [decide_eq_true h]
    cases l with
    | nil => exact absurd rfl hl
    | cons a t => rfl
  · rw [decide_eq_false h]
    rfl

theorem rate_lt_default (fc tc : Nat) (h : 0 < tc) :
    (1 - (fc : ℚ) / (tc : ℚ) < 95/100) ↔ tc < 20 * fc := by
  have h0 : (0:ℚ) < (tc:ℚ) := by exact_mod_cast h
  rw [sub_lt_comm, show (1:ℚ) - 95/100 = 1/20 by norm_num,
    div_lt_div_iff₀ (by norm_num) h0]
  constructor
  · intro hx
    have hq : ((tc : Nat) : ℚ) < ((20 * fc : Nat) : ℚ) := by push_cast; linarith
    exact_mod_cast hq
  · intro hx
    have hq : ((tc : Nat) : ℚ) < ((20 * fc : Nat) : ℚ) := by exact_mod_cast hx
    push_cast at hq
    linarith

theorem warnFlags_caaSteps (e : String) (evs : List (Bool × Option String)) :
    ∀ (m : AlertManager), m.alert_on_failure = true → WFat m e →
    (caaSteps m e evs).2.map (fun l => !(warningAlerts l).isEmpty) =
      warnFlags m.alert_threshold (getCount m.failure_counts e)
        (getCount m.total_checks e) evs := by
  induction evs with
  | nil => intro m hon hw; rfl
  | cons ev rest ih =>
    intro m hon hw
    obtain ⟨s, err⟩ := ev
    simp only [caaSteps, List.map_cons, warnFlags]
    have htail := ih (check_and_alert m e s err).1
      (by rw [caa_alert_on]; exact hon) (WFat_caa m e s err hw)
    rw [List.cons.injEq]
    constructor
    · rw [caa_warning_alerts m e s err hon hw]
      exact not_isEmpty_ite _ (List.cons_ne_nil _ _)
    · rw [htail, caa_threshold, caa_total_count m e s err hon,
        caa_fail_count m e s err hon hw]
      cases s <;> simp

theorem warnFlags_default (evs : List (Bool × Option String)) :
    ∀ (fc tc : Nat),
    warnFlags (95/100) fc tc evs = warnFlagsNat fc tc (evs.map Prod.fst) := by
  induction evs with
  | nil => intro fc tc; rfl
  | cons ev rest ih =>
    intro fc tc
    simp only [warnFlags, warnFlagsNat, List.map_cons, ih, List.cons.injEq, and_true]
    rw [decide_eq_decide]
    exact and_congr_right (fun _ =>
      rate_lt_default (fc + (if ev.1 = false then 1 else 0)) (tc + 1) (by omega))

/-- The run of 10 checks on one endpoint with exactly one failure, at
(1-indexed) position `k`, all other checks succeeding. -/
def singleFailEvents (k : Nat) : List (Bool × Option String) :=
  (List.range 10).map (fun i => (!(i + 1 == k), none))

/-- C3 counterexample: with the default threshold 0.95 and the single failure
in position 1 of 10, no call of the run — in particular not the 10th — emits
a warning alert, because the success at position 2 resets the only failure
counter the rate is computed from; this refutes the claim that 1 failure in
any position yields a warning on the 10th check. -/
theorem warning_not_fired_failure_first_cex :
    (singleFailEvents 1).map Prod.fst =
      [false, true, true, true, true, true, true, true, true, true] ∧
    (caaSteps freshManager "e" (singleFailEvents 1)).2.map
        (fun l => !(warningAlerts l).isEmpty) =
      [false, false, false, false, false, false, false, false, false, false] := by
  constructor
  · decide
  · rw [warnFlags_caaSteps "e" _ freshManager rfl (fun h => h)]
    rw [show freshManager.alert_threshold = 95/100 from rfl]
    rw [warnFlags_default]
    decide

/-- C3 amended: in a run of 10 checks with exactly one failure at position
`k`, a warning-severity alert fires on the 10th check if and only if the
failure is in position 9 or 10 (no success follows it): the rate is computed
from the consecutive-failure counter, which an intervening success resets to
0, so failures in positions 1 through 8 produce no warning; with 0 failures
in 10 checks no warning fires. -/
theorem success_rate_warning_iff_failure_late (k : Nat) (h1 : 1 ≤ k) (h2 : k ≤ 10) :
    ((caaSteps freshManager "e" (singleFailEvents k)).2.map
        (fun l => !(warningAlerts l).isEmpty) =
      if 9 ≤ k then
        [false, false, false, false, false, false, false, false, false, true]
      else
        [false, false, false, false, false, false, false, false, false, false]) ∧
    (caaSteps freshManager "e" (List.replicate 10 (true, none))).2.map
        (fun l => !(warningAlerts l).isEmpty) =
      [false, false, false, false, false, false, false, false, false, false] := by
  constructor
  · rw [warnFlags_caaSteps "e" _ freshManager rfl (fun h => h)]
    rw [show freshManager.alert_threshold = 95/100 from rfl]
    rw [warnFlags_default]
    interval_cases k <;> decide
  · rw [warnFlags_caaSteps "e" _ freshManager rfl (fun h => h)]
    rw [show freshManager.alert_threshold = 95/100 from rfl]
    rw [warnFlags_default]
    decide

/-- C3 witness: the amended theorem applied at position 10 (failure on the
last check), where the warning does fire on the 10th check. -/
theorem success_rate_warning_iff_failure_late_witness :
    ((caaSteps freshManager "e" (singleFailEvents 10)).2.map
        (fun l => !(warningAlerts l).isEmpty) =
      if 9 ≤ 10 then
        [false, false, false, false, false, false, false, false, false, true]
      else
        [false, false, false, false, false, false, false, false, false, false]) ∧
    (caaSteps freshManager "e" (List.replicate 10 (true, none))).2.map
        (fun l => !(warningAlerts l).isEmpty) =
      [false, false, false, false, false, false, false, false, false, false] :=
  success_rate_warning_iff_failure_late 10 (by norm_num) (by norm_num)

/-- The loop of `async_retry`'s wrapper, from a given attempt index with a
given number of remaining iterations: return the first successful invocation's
value; re-raise the exception of the last permitted attempt; `none` models the
implicit `None` returned when the loop body never runs (`attempts = 0`).  The
invocation sequence is modelled by `f`, giving the outcome of the i-th call of
the wrapped operation. -/
def retryAux {α : Type} (f : Nat → Except String α) : Nat → Nat → Option (Except String α)
  | _, 0 => none
  | attempt, r + 1 =>
    match f attempt with
    | .ok a => some (.ok a)
    | .error msg => if r = 0 then some (.error msg) else retryAux f (attempt + 1) r

/-- `async_retry(attempts=attempts)` applied to an operation whose i-th
invocation yields `f i`. -/
def async_retry {α : Type} (attempts : Nat) (f : Nat → Except String α) :
    Option (Except String α) :=
  retryAux f 0 attempts

/-- Number of times the wrapped operation is invoked by `retryAux`. -/
def retryCountAux {α : Type} (f : Nat → Except String α) : Nat → Nat → Nat
  | _, 0 => 0
  | attempt, r + 1 =>
    match f attempt with
    | .ok _ => 1
    | .error _ => if r = 0 then 1 else 1 + retryCountAux f (attempt + 1) r

/-- Number of times the wrapped operation is invoked by `async_retry`. -/
def retryCount {α : Type} (attempts : Nat) (f : Nat → Except String α) : Nat :=
  retryCountAux f 0 attempts

theorem retryAux_ok {α : Type} (f : Nat → Except String α) (j : Nat) :
    ∀ (start r : Nat), j < r →
    (∀ i, i < j → ∃ msg, f (start + i) = .error msg) →
    ∀ a, f (start + j) = .ok a →
    retryAux f start r = some (.ok a) ∧ retryCountAux f start r = j + 1 := by
  induction j with
  | zero =>
    intro start r hj hprev a hja
    obtain ⟨r', rfl⟩ : ∃ r', r = r' + 1 := ⟨r - 1, by omega⟩
    simp only [Nat.add_zero] at hja
    simp [retryAux, retryCountAux, hja]
  | succ j ih =>
    intro start r hj hprev a hja
    obtain ⟨r', rfl⟩ : ∃ r', r = r' + 1 := ⟨r - 1, by omega⟩
    obtain ⟨msg, hmsg⟩ := hprev 0 (by omega)
    simp only [Nat.add_zero] at hmsg
    have hr' : r' ≠ 0 := by omega
    have htail := ih (start + 1) r' (by omega)
      (fun i hi => by
        obtain ⟨m2, hm2⟩ := hprev (i + 1) (by omega)
        exact ⟨m2, by rw [show start + 1 + i = start + (i + 1) by omega]; exact hm2⟩)
      a (by rw [show start + 1 + j = start + (j + 1) by omega]; exact hja)
    refine ⟨?_, ?_⟩
    · simp [retryAux, hmsg, hr', htail.1]
    · simp [retryCountAux, hmsg, hr', htail.2]
      omega

theorem retryAux_allfail {α : Type} (f : Nat → Except String α) :
    ∀ (r start : Nat), 1 ≤ r →
    (∀ i, i < r → ∃ msg, f (start + i) = .error msg) →
    retryAux f start r = some (f (start + r - 1)) ∧ retryCountAux f start r = r := by
  intro r
  induction r with
  | zero => intro start h1; omega
  | succ r' ih =>
    intro start h1 hall
    obtain ⟨msg, hmsg⟩ := hall 0 (by omega)
    simp only [Nat.add_zero] at hmsg
    by_cases hr' : r' = 0
    · subst hr'
      simp [retryAux, retryCountAux, hmsg]
    · have htail := ih (start + 1) (by omega)
        (fun i hi => by
          obtain ⟨m2, hm2⟩ := hall (i + 1) (by omega)
          exact ⟨m2, by rw [show start + 1 + i = start + (i + 1) by omega]; exact hm2⟩)
      refine ⟨?_, ?_⟩
      · rw [show start + (r' + 1) - 1 = start + 1 + r' - 1 by omega]
        simp [retryAux, hmsg, hr', htail.1]
      · simp [retryCountAux, hmsg, hr', htail.2]
        omega

theorem retryAux_congr {α : Type} (f g : Nat → Except String α) :
    ∀ (r start : Nat), (∀ i, i < r → g (start + i) = f (start + i)) →
    retryAux g start r = retryAux f start r ∧
    retryCountAux g start r = retryCountAux f start r := by
  intro r
  induction r with
  | zero => intro start hagree; exact ⟨rfl, rfl⟩
  | succ r' ih =>
    intro start hagree
    have h0 : g start = f start := by
      have := hagree 0 (by omega)
      simpa using this
    have htail := ih (start + 1)
      (fun i hi => by
        rw [show start + 1 + i = start + (i + 1) by omega]
        exact hagree (i + 1) (by omega))
    constructor
    · simp only [retryAux, h0]
      cases f start with
      | ok a => rfl
      | error msg =>
        by_cases hr' : r' = 0 <;> simp [hr', htail.1]
    · simp only [retryCountAux, h0]
      cases f start with
      | ok a => rfl
      | error msg =>
        by_cases hr' : r' = 0 <;> simp [hr', htail.2]

/-- C4: for the retry executor with a budget of `attempts` tries — (1) if the
first `j` invocations raise and invocation `j` (0-indexed) succeeds within the
budget, the success value is returned and the operation was invoked exactly
`j + 1` times; (2) if every permitted invocation raises, the final
invocation's exception is the returned outcome after exactly `attempts`
invocations; (3) the executor's behaviour depends only on the first
`attempts` invocations, so the operation is never invoked beyond the
budget. -/
theorem async_retry_invocations {α : Type} (attempts : Nat) (f : Nat → Except String α) :
    (∀ j a, j < attempts → (∀ i, i < j → ∃ msg, f i = .error msg) → f j = .ok a →
      async_retry attempts f = some (.ok a) ∧ retryCount attempts f = j + 1) ∧
    (1 ≤ attempts → (∀ i, i < attempts → ∃ msg, f i = .error msg) →
      async_retry attempts f = some (f (attempts - 1)) ∧
        retryCount attempts f = attempts) ∧
    (∀ g : Nat → Except String α, (∀ i, i < attempts → g i = f i) →
      async_retry attempts g = async_retry attempts f ∧
        retryCount attempts g = retryCount attempts f) := by
  refine ⟨?_, ?_, ?_⟩
  · intro j a hj hprev hja
    have := retryAux_ok f j 0 attempts hj
      (fun i hi => by simpa using hprev i hi) a (by simpa using hja)
    exact ⟨this.1, this.2⟩
  · intro h1 hall
    have := retryAux_allfail f attempts 0 h1 (fun i hi => by simpa using hall i hi)
    exact ⟨by simpa using this.1, this.2⟩
  · intro g hagree
    exact retryAux_congr f g attempts 0 (fun i hi => by simpa using hagree i hi)

/-- Invocation outcomes that fail twice, then succeed with value 7. -/
def failTwiceThenOk : Nat → Except String Nat :=
  fun i => if i < 2 then .error "Connection refused" else .ok 7

/-- C4 witness: with `attempts=3` and a dependency failing twice then
succeeding, the executor returns the success and invoked it exactly 3
times. -/
theorem async_retry_invocations_witness :
    async_retry 3 failTwiceThenOk = some (.ok 7) ∧ retryCount 3 failTwiceThenOk = 2 + 1 :=
  (async_retry_invocations 3 failTwiceThenOk).1 2 7 (by decide)
    (fun i hi => ⟨"Connection refused", by interval_cases i <;> rfl⟩) rfl

/-- Model of `continuous_monitoring`: each round of the trace records the
outcome of the try-guarded cycle body (`run_checks` plus statistics logging;
`Except.error` models an exception caught by the `except` clause) and whether
the shutdown event is observed set by the time the post-cycle
`wait_for(shutdown_event.wait, interval)` returns.  The loop re-checks the
event before every cycle; the result is (number of cycles executed, whether
the loop has returned by the end of the modelled trace).  A `false` second
component means the loop is still running (the trace ended without a
shutdown), matching the source's indefinite `while`. -/
def monitorLoop : Bool → List (Except String Unit × Bool) → Nat × Bool
  | true, _ => (0, true)
  | false, [] => (0, false)
  | false, r :: rest =>
    let t := monitorLoop r.2 rest
    (t.1 + 1, t.2)

/-- C7: the continuous-monitoring loop (1) returns exactly when the shutdown
event is set — initially or during some round's interval wait — and otherwise
keeps running; (2) its control flow is independent of the cycle outcomes, so
a cycle exception (absorbed by the `except` clause) never terminates it and
nothing escapes the loop; (3) when the shutdown event is first observed
during round `k`'s wait, the loop has executed exactly `k + 1` cycles — it
returns without starting a new cycle. -/
theorem continuous_monitoring_loop_spec :
    (∀ (sd : Bool) (rounds : List (Except String Unit × Bool)),
      (monitorLoop sd rounds).2 = (sd || rounds.any (fun r => r.2))) ∧
    (∀ (sd : Bool) (rounds : List (Except String Unit × Bool))
        (g : Except String Unit → Except String Unit),
      monitorLoop sd (rounds.map (fun r => (g r.1, r.2))) = monitorLoop sd rounds) ∧
    (∀ rounds : List (Except String Unit × Bool),
      (monitorLoop false rounds).1 =
        min (rounds.findIdx (fun r => r.2) + 1) rounds.length) := by
  refine ⟨?_, ?_, ?_⟩
  · intro sd rounds
    induction rounds generalizing sd with
    | nil => cases sd <;> rfl
    | cons r rest ih =>
      cases sd with
      | true => rfl
      | false => simp [monitorLoop, ih r.2, List.any_cons]
  · intro sd rounds g
    induction rounds generalizing sd with
    | nil => cases sd <;> rfl
    | cons r rest ih =>
      cases sd with
      | true => rfl
      | false => simp [monitorLoop, ih r.2]
  · intro rounds
    induction rounds with
    | nil => rfl
    | cons r rest ih =>
      cases hr : r.2 with
      | true => simp [monitorLoop, hr, List.findIdx_cons]
      | false =>
        simp only [monitorLoop, ih, List.findIdx_cons, hr, cond_false, List.length_cons]
        omega

/-- `EndpointConfig` from `ollama_monitor.py`.  The `headers` and `body`
fields are omitted: they are only forwarded verbatim to the HTTP transport
(an external collaborator) and are never read by the engine logic modelled
here. -/
structure EndpointConfig where
  path : String
  method : String := "GET"
  expected_status : Nat := 200
  expected_content : Option String := none
deriving Repr, DecidableEq

/-- Whether `needle` starts `hay` (character lists). -/
def charsStart : List Char → List Char → Bool
  | [], _ => true
  | _ :: _, [] => false
  | a :: as, b :: bs => a == b && charsStart as bs

/-- Whether `needle` occurs somewhere in `hay` (character lists). -/
def charsSub : List Char → List Char → Bool
  | needle, [] => needle.isEmpty
  | needle, c :: rest => charsStart needle (c :: rest) || charsSub needle rest

/-- Python's `sub in hay` on strings. -/
def strContains (hay sub : String) : Bool :=
  charsSub sub.toList hay.toList

/-- The success classification of one HTTP response inside `check_endpoint`:
status code must equal the expected status, and when a (non-empty, because
Python truthiness treats `""` as absent) expected-content substring is
configured it must occur in the response text. -/
def probe_success (cfg : EndpointConfig) (status : Nat) (text : String) : Bool :=
  let success := status == cfg.expected_status
  if success = true then
    match cfg.expected_content with
    | some c => if c ≠ "" ∧ strContains text c = false then false else true
    | none => true
  else false

/-- One attempt of `check_endpoint`'s body.  The attempt outcome `att` is
either a received response `(response_time, status_code, response_text)` or a
transport exception with its message.  On a response, the result is returned
(an expectation mismatch is a terminal Failure, not an exception) after
forwarding `(success, error_msg)` to the alert manager when one is attached;
on an exception, a failure is forwarded and the exception re-raised.  Returns
(new alert-manager state, alerts emitted, outcome of this attempt). -/
def attempt_eval (am : Option AlertManager) (cfg : EndpointConfig) (e : String)
    (att : Except String (ℚ × Nat × String)) :
    Option AlertManager × List Alert × Except String (ℚ × Nat) :=
  match att with
  | .ok (t, status, text) =>
    let success := probe_success cfg status text
    let errMsg := if success = true then none
      else some ("Status code: " ++ toString status)
    match am with
    | some mgr =>
      let r := check_and_alert mgr e success errMsg
      (some r.1, r.2, .ok (t, status))
    | none => (none, [], .ok (t, status))
  | .error msg =>
    match am with
    | some mgr =>
      let r := check_and_alert mgr e false (some msg)
      (some r.1, r.2, .error msg)
    | none => (none, [], .error msg)

/-- `check_endpoint` under its `async_retry` decorator, from a given attempt
index with a given remaining budget, threading the alert-manager state
through the attempts (the manager is consulted on every attempt, successful
or not).  The final component is the probe outcome (`none` models the
`attempts = 0` fall-through returning `None`). -/
def check_endpoint_go (cfg : EndpointConfig) (e : String)
    (f : Nat → Except String (ℚ × Nat × String)) :
    Option AlertManager → Nat → Nat →
      Option AlertManager × List Alert × Option (Except String (ℚ × Nat))
  | am, _, 0 => (am, [], none)
  | am, attempt, r + 1 =>
    let step := attempt_eval am cfg e (f attempt)
    match step.2.2 with
    | .ok v => (step.1, step.2.1, some (.ok v))
    | .error msg =>
      if r = 0 then (step.1, step.2.1, some (.error msg))
      else
        let rest := check_endpoint_go cfg e f step.1 (attempt + 1) r
        (rest.1, step.2.1 ++ rest.2.1, rest.2.2)

/-- One full probe of one endpoint: `check_endpoint` with its retry budget,
starting from attempt 0. -/
def check_endpoint (am : Option AlertManager) (cfg : EndpointConfig) (e : String)
    (attempts : Nat) (f : Nat → Except String (ℚ × Nat × String)) :
    Option AlertManager × List Alert × Option (Except String (ℚ × Nat)) :=
  check_endpoint_go cfg e f am 0 attempts

/-- Number of attempts the probe makes: 1 for an attempt that yields a
response (success or expectation mismatch — neither is retried), one more per
transport exception while budget remains. -/
def attemptsUsed (f : Nat → Except String (ℚ × Nat × String)) : Nat → Nat → Nat
  | _, 0 => 0
  | attempt, r + 1 =>
    match f attempt with
    | .ok _ => 1
    | .error _ => if r = 0 then 1 else 1 + attemptsUsed f (attempt + 1) r

theorem check_endpoint_go_total (cfg : EndpointConfig) (e : String)
    (f : Nat → Except String (ℚ × Nat × String)) :
    ∀ (r attempt : Nat) (m : AlertManager), m.alert_on_failure = true →
    ((check_endpoint_go cfg e f (some m) attempt r).1.map
      (fun mgr => getCount mgr.total_checks e)) =
      some (getCount m.total_checks e + attemptsUsed f attempt r) := by
  intro r
  induction r with
  | zero => intro attempt m hon; simp [check_endpoint_go, attemptsUsed]
  | succ r' ih =>
    intro attempt m hon
    cases hf : f attempt with
    | ok v =>
      obtain ⟨t, status, text⟩ := v
      simp [check_endpoint_go, attempt_eval, hf, attemptsUsed,
        caa_total_count _ _ _ _ hon]
    | error msg =>
      by_cases hr' : r' = 0
      · subst hr'
        simp [check_endpoint_go, attempt_eval, hf, attemptsUsed,
          caa_total_count _ _ _ _ hon]
      · have hon' : (check_and_alert m e false (some msg)).1.alert_on_failure = true := by
          rw [caa_alert_on]; exact hon
        simp only [check_endpoint_go, attempt_eval, hf, attemptsUsed, hr', if_false]
        rw [ih (attempt + 1) _ hon', caa_total_count _ _ _ _ hon]
        simp only [Option.some.injEq]
        omega

/-- The always-raising dependency (`Connection refused` on every attempt). -/
def failingAttempts : Nat → Except String (ℚ × Nat × String) :=
  fun _ => .error "Connection refused"

/-- An endpoint configuration with the source defaults. -/
def basicConfig : EndpointConfig := { path := "/" }

/-- C6 counterexample: one probe of one endpoint in one cycle, with
`attempts=3` and every attempt raising a transport error, leaves the alert
evaluator's `total_checks` for that endpoint at 3, not 1 — `check_endpoint`
forwards a failure to `check_and_alert` on every retry attempt (before
re-raising), not once per cycle. -/
theorem alert_recorded_per_attempt_not_per_cycle_cex :
    ((check_endpoint (some freshManager) basicConfig "/health" 3 failingAttempts).1.map
      (fun mgr => getCount mgr.total_checks "/health")) = some 3 ∧
    ((check_endpoint (some freshManager) basicConfig "/health" 3 failingAttempts).1.map
      (fun mgr => getCount mgr.failure_counts "/health")) = some 3 ∧
    ¬ ((check_endpoint (some freshManager) basicConfig "/health" 3 failingAttempts).1.map
      (fun mgr => getCount mgr.total_checks "/health")) = some 1 := by
  refine ⟨by decide, by decide, by decide⟩

/-- C6 amended: per probe, the alert evaluator records one check per
*attempt*, not one per cycle: after a probe of endpoint `e`, `total_checks`
has increased by exactly the number of attempts the probe made (1 when the
first attempt yields a response — success or expectation mismatch — and one
per transport error up to the retry budget, so a probe that exhausts
`attempts` retries records `attempts` failures). -/
theorem check_endpoint_records_per_attempt (m : AlertManager) (cfg : EndpointConfig)
    (e : String) (attempts : Nat) (f : Nat → Except String (ℚ × Nat × String))
    (hon : m.alert_on_failure = true) :
    ((check_endpoint (some m) cfg e attempts f).1.map
      (fun mgr => getCount mgr.total_checks e)) =
      some (getCount m.total_checks e + attemptsUsed f 0 attempts) :=
  check_endpoint_go_total cfg e f attempts 0 m hon

/-- C6 witness: the amended theorem applied to a fresh manager and the
always-failing dependency with a budget of 3. -/
theorem check_endpoint_records_per_attempt_witness :
    ((check_endpoint (some freshManager) basicConfig "/health" 3 failingAttempts).1.map
      (fun mgr => getCount mgr.total_checks "/health")) =
      some (getCount freshManager.total_checks "/health" +
        attemptsUsed failingAttempts 0 3) :=
  check_endpoint_records_per_attempt freshManager basicConfig "/health" 3
    failingAttempts rfl

/-- The probe outcome of one endpoint as collected by the fan-out (alert
forwarding aside): the final value of the retried `check_endpoint` call. -/
def probe_outcome (cfg : EndpointConfig) (e : String) (attempts : Nat)
    (f : Nat → Except String (ℚ × Nat × String)) : Option (Except String (ℚ × Nat)) :=
  (check_endpoint none cfg e attempts f).2.2

/-- `run_checks`: one probe task per configured endpoint, gathered with
`asyncio.gather(..., return_exceptions=True)`, which returns one result per
task in task (endpoint-iteration) order regardless of completion order, with
a task's exception captured as that slot's value instead of propagating.
Since a probe's outcome value reads no shared mutable state, the gathered
value list is the ordered list of per-endpoint probe outcomes. -/
def run_checks (endpoints : List (String × EndpointConfig)) (attempts : Nat)
    (f : String → Nat → Except String (ℚ × Nat × String)) :
    List (Option (Except String (ℚ × Nat))) :=
  endpoints.map (fun p => probe_outcome p.2 p.1 attempts (f p.1))

theorem check_endpoint_go_some (cfg : EndpointConfig) (e : String)
    (f : Nat → Except String (ℚ × Nat × String)) :
    ∀ (r : Nat), 1 ≤ r → ∀ (attempt : Nat) (am : Option AlertManager),
    (check_endpoint_go cfg e f am attempt r).2.2 ≠ none := by
  intro r
  induction r with
  | zero => intro h1; omega
  | succ r' ih =>
    intro _ attempt am
    cases hf : f attempt with
    | ok v =>
      obtain ⟨t, status, text⟩ := v
      cases am <;> simp [check_endpoint_go, attempt_eval, hf]
    | error msg =>
      by_cases hr' : r' = 0
      · subst hr'
        cases am <;> simp [check_endpoint_go, attempt_eval, hf]
      · have htail := ih (by omega) (attempt + 1)
        cases am with
        | none => simpa [check_endpoint_go, attempt_eval, hf, hr'] using htail none
        | some mgr =>
          simpa [check_endpoint_go, attempt_eval, hf, hr'] using
            htail (some (check_and_alert mgr e false (some msg)).1)

/-- C5: the fan-out (1) returns exactly one outcome slot per configured
endpoint; (2) the slot at position `i` is the probe outcome of the endpoint
at position `i` of the endpoint iteration, independent of the other
endpoints; (3) a slot's value depends only on that endpoint's own attempt
behaviour, so another endpoint's failure cannot change it; (4) with at least
one permitted attempt every slot holds a value — a probe that exhausts its
retries contributes its exception as the slot's value rather than raising out
of the fan-out. -/
theorem run_checks_ordered_isolated (endpoints : List (String × EndpointConfig))
    (attempts : Nat) (f g : String → Nat → Except String (ℚ × Nat × String)) :
    (run_checks endpoints attempts f).length = endpoints.length ∧
    (∀ i : Nat, (run_checks endpoints attempts f)[i]? =
      (endpoints[i]?).map (fun p => probe_outcome p.2 p.1 attempts (f p.1))) ∧
    (∀ p : String × EndpointConfig, (∀ k, g p.1 k = f p.1 k) →
      probe_outcome p.2 p.1 attempts (g p.1) = probe_outcome p.2 p.1 attempts (f p.1)) ∧
    (1 ≤ attempts → ∀ p : String × EndpointConfig,
      probe_outcome p.2 p.1 attempts (f p.1) ≠ none) := by
  refine ⟨by simp [run_checks], ?_, ?_, ?_⟩
  · intro i
    simp [run_checks, List.getElem?_map]
  · intro p hk
    have : g p.1 = f p.1 := funext hk
    rw [this]
  · intro h1 p
    exact check_endpoint_go_some p.2 p.1 (f p.1) attempts h1 0 none

/-- The spec's fan-out example: endpoint A always succeeds, endpoint B's
attempts always raise. -/
def exampleEndpoints : List (String × EndpointConfig) :=
  [("/a", { path := "/a" }), ("/b", { path := "/b" })]

/-- Attempt behaviour for `exampleEndpoints`: `/a` responds 200 immediately,
every other endpoint raises on every attempt. -/
def exampleProbes : String → Nat → Except String (ℚ × Nat × String) :=
  fun e _ => if e = "/a" then .ok (1, 200, "ok") else .error "boom"

/-- C5 witness: the theorem applied to the two-endpoint example, giving the
slot equation at position 1 and the no-missing-slot guarantee for `/b`. -/
theorem run_checks_ordered_isolated_witness :
    (run_checks exampleEndpoints 3 exampleProbes)[1]? =
      (exampleEndpoints[1]?).map
        (fun p => probe_outcome p.2 p.1 3 (exampleProbes p.1)) ∧
    probe_outcome ({ path := "/b" } : EndpointConfig) "/b" 3 (exampleProbes "/b") ≠ none :=
  ⟨(run_checks_ordered_isolated exampleEndpoints 3 exampleProbes exampleProbes).2.1 1,
    (run_checks_ordered_isolated exampleEndpoints 3 exampleProbes
      exampleProbes).2.2.2 (by omega) ("/b", { path := "/b" })⟩

/-- Insert into a sorted list (ascending). -/
def insertSorted (x : ℚ) : List ℚ → List ℚ
  | [] => [x]
  | y :: ys => if x ≤ y then x :: y :: ys else y :: insertSorted x ys

/-- Python's `sorted(data)` for rational samples (insertion sort; on `ℚ` the
ascending rearrangement of a sample is unique, so any sort agrees). -/
def sortQ : List ℚ → List ℚ
  | [] => []
  | x :: xs => insertSorted x (sortQ xs)

/-- `statistics.quantiles(data, n=n)` with the default `method='exclusive'`:
raises unless `n >= 1` and the sample has at least two points; otherwise
returns the `n - 1` cut points, each linearly interpolated at position
`i*(ld+1)/n` of the sorted sample with the index clamped to `[1, ld-1]`. -/
def quantiles (data : List ℚ) (n : Nat) : Except String (List ℚ) :=
  if n < 1 then .error "n must be at least 1"
  else if data.length < 2 then .error "must have at least two data points"
  else
    .ok ((List.range (n - 1)).map (fun i0 =>
      let i := i0 + 1
      let m := data.length + 1
      let j0 := (i * m) / n
      let j := if j0 < 1 then 1
        else if data.length - 1 < j0 then data.length - 1 else j0
      let delta := (i * m) % n
      ((sortQ data).getD (j - 1) 0 * ((n : ℚ) - (delta : ℚ)) +
        (sortQ data).getD j 0 * (delta : ℚ)) / (n : ℚ)))

/-- `statistics.mean` (caller guarantees a non-empty sample). -/
def meanQ (data : List ℚ) : ℚ := data.sum / (data.length : ℚ)

/-- `statistics.median` (caller guarantees a non-empty sample). -/
def medianQ (data : List ℚ) : ℚ :=
  let s := sortQ data
  let n := data.length
  if n % 2 = 1 then s.getD (n / 2) 0
  else (s.getD (n / 2 - 1) 0 + s.getD (n / 2) 0) / 2

/-- Python's `min(data)` (caller guarantees a non-empty sample). -/
def minQ (data : List ℚ) : ℚ :=
  match data with
  | [] => 0
  | x :: xs => xs.foldl min x

/-- Python's `max(data)` (caller guarantees a non-empty sample). -/
def maxQ (data : List ℚ) : ℚ :=
  match data with
  | [] => 0
  | x :: xs => xs.foldl max x

/-- The dictionary returned by `load_test`. -/
structure LoadTestSummary where
  total_requests : Nat
  concurrency : Nat
  successful_requests : Nat
  failed_requests : Nat
  average_response_time : ℚ
  median_response_time : ℚ
  p95_response_time : ℚ
  min_response_time : ℚ
  max_response_time : ℚ
deriving Repr, DecidableEq

/-- The statistics phase of `load_test`, given the latency samples and status
codes the request batch collected (`none` = a request that raised after its
retries; such requests record no latency).  With no samples all statistics
default to 0; otherwise mean/median/min/max are computed (total for non-empty
samples) and the p95 is `quantiles(response_times, n=20)[-1]`, whose
`StatisticsError` on a one-point sample propagates out of `load_test`. -/
def load_test_stats (num_requests concurrency : Nat) (response_times : List ℚ)
    (status_codes : List (Option Nat)) : Except String LoadTestSummary :=
  let successful := (status_codes.filter (fun cd => cd == some 200)).length
  let failed := num_requests - successful
  if response_times.isEmpty then
    .ok { total_requests := num_requests, concurrency := concurrency
          successful_requests := successful, failed_requests := failed
          average_response_time := 0, median_response_time := 0
          p95_response_time := 0, min_response_time := 0, max_response_time := 0 }
  else
    match quantiles response_times 20 with
    | .error msg => .error msg
    | .ok qs =>
      .ok { total_requests := num_requests, concurrency := concurrency
            successful_requests := successful, failed_requests := failed
            average_response_time := meanQ response_times
            median_response_time := medianQ response_times
            p95_response_time := qs.getLastD 0
            min_response_time := minQ response_times
            max_response_time := maxQ response_times }

theorem getLastD_range_map {α : Type} (f : Nat → α) (n : Nat) (d : α) :
    ((List.range (n + 1)).map f).getLastD d = f n := by
  rw [List.range_succ, List.map_append]
  simp

/-- The clamped index of the last cut point of the exclusive 20-quantile
split: `divmod(19 * (ld + 1), 20)` quotient, clamped to `[1, ld - 1]`. -/
def p95j (data : List ℚ) : Nat :=
  let j0 := 19 * (data.length + 1) / 20
  if j0 < 1 then 1 else if data.length - 1 < j0 then data.length - 1 else j0

/-- The interpolation weight of the last cut point:
`divmod(19 * (ld + 1), 20)` remainder. -/
def p95delta (data : List ℚ) : Nat := 19 * (data.length + 1) % 20

/-- Modelled from the spec: the nearest-rank 95th percentile, "the element at
the `(n*0.95)`th position" of the sorted sample — the entry of rank
`⌈0.95 * n⌉` (1-indexed) of the sorted sample. -/
def p95_nearest_rank (data : List ℚ) : ℚ :=
  (sortQ data).getD ((19 * data.length + 19) / 20 - 1) 0

theorem load_test_p95_formula (num c : Nat) (codes : List (Option Nat))
    (data : List ℚ) (h : 2 ≤ data.length) :
    (load_test_stats num c data codes).map (fun s => s.p95_response_time) =
      .ok (((sortQ data).getD (p95j data - 1) 0 * ((20 : ℚ) - (p95delta data : ℚ)) +
        (sortQ data).getD (p95j data) 0 * ((p95delta data : ℚ))) / 20) := by
  cases data with
  | nil => simp at h
  | cons x xs =>
    have hq : quantiles (x :: xs) 20 = .ok ((List.range 19).map (fun i0 =>
        let i := i0 + 1
        let m := (x :: xs).length + 1
        let j0 := (i * m) / 20
        let j := if j0 < 1 then 1
          else if (x :: xs).length - 1 < j0 then (x :: xs).length - 1 else j0
        let delta := (i * m) % 20
        ((sortQ (x :: xs)).getD (j - 1) 0 * ((20 : ℚ) - (delta : ℚ)) +
          (sortQ (x :: xs)).getD j 0 * (delta : ℚ)) / (20 : ℚ))) := by
      simp only [quantiles]
      rw [if_neg (by norm_num), if_neg (by omega)]
      norm_num
    simp only [load_test_stats, List.isEmpty_cons, Bool.false_eq_true, if_false, hq]
    rw [show (19 : Nat) = 18 + 1 from rfl, getLastD_range_map]
    simp only [Except.map]
    norm_num [p95j, p95delta]

/-- C8 counterexample: for the sample `[1, 2]`, `load_test` reports
`p95_response_time = 1.85` — the exclusive-method interpolated value
`(1*(20-17) + 2*17)/20` — whereas the nearest-rank 95th percentile (the
element at the `⌈0.95*n⌉`-th position of the sorted sample) is `2`; the two
definitions disagree, refuting the claim that the reported p95 is the
nearest-rank percentile. -/
theorem p95_not_nearest_rank_cex :
    (load_test_stats 2 1 [(1 : ℚ), 2] [some 200, some 200]).map
      (fun s => s.p95_response_time) = .ok (37/20) ∧
    p95_nearest_rank [(1 : ℚ), 2] = 2 ∧
    ¬ ((37 : ℚ)/20 = 2) := by
  refine ⟨?_, ?_, by norm_num⟩
  · rw [load_test_p95_formula 2 1 [some 200, some 200] [(1 : ℚ), 2] (by decide)]
    norm_num [p95j, p95delta, sortQ, insertSorted]
  · norm_num [p95_nearest_rank, sortQ, insertSorted]

/-- C8 amended: for every latency sample of size at least 2, the reported
`p95_response_time` is the last cut point of Python's exclusive-method
20-quantile split — the value linearly interpolated with weights
`divmod(19*(n+1), 20)` between the sorted sample's entries at the clamped
index — not the nearest-rank percentile; and for a single-sample batch the
computation raises (`StatisticsError`) instead of reporting a value. -/
theorem p95_exclusive_last_cut (num c : Nat) (codes : List (Option Nat))
    (data : List ℚ) (h : 2 ≤ data.length) :
    (load_test_stats num c data codes).map (fun s => s.p95_response_time) =
      .ok (((sortQ data).getD (p95j data - 1) 0 * ((20 : ℚ) - (p95delta data : ℚ)) +
        (sortQ data).getD (p95j data) 0 * ((p95delta data : ℚ))) / 20) ∧
    (∀ x : ℚ, load_test_stats num c [x] codes =
      .error "must have at least two data points") := by
  refine ⟨load_test_p95_formula num c codes data h, ?_⟩
  intro x
  simp [load_test_stats, quantiles]

/-- C8 witness: the amended theorem applied to the sample `[1, 2]`. -/
theorem p95_exclusive_last_cut_witness :
    (load_test_stats 2 1 [(1 : ℚ), 2] [some 200, some 200]).map
      (fun s => s.p95_response_time) =
      .ok (((sortQ [(1 : ℚ), 2]).getD (p95j [(1 : ℚ), 2] - 1) 0 *
          ((20 : ℚ) - (p95delta [(1 : ℚ), 2] : ℚ)) +
        (sortQ [(1 : ℚ), 2]).getD (p95j [(1 : ℚ), 2]) 0 *
          ((p95delta [(1 : ℚ), 2] : ℚ))) / 20) ∧
    (∀ x : ℚ, load_test_stats 2 1 [x] [some 200, some 200] =
      .error "must have at least two data points") :=
  p95_exclusive_last_cut 2 1 [some 200, some 200] [(1 : ℚ), 2] (by decide)

/-- C10: `load_test` returns a statistics summary exactly when the latency
sample is empty (all statistics defaulting to 0 — the zero-division guard) or
has at least two entries; with exactly one recorded latency the 20-quantile
computation raises (`StatisticsError` requires at least two data points), so
the guard does not make `load_test` total over single-sample batches. -/
theorem load_test_stats_sample_size (num c : Nat) (codes : List (Option Nat)) :
    (load_test_stats num c [] codes =
      .ok { total_requests := num, concurrency := c
            successful_requests := (codes.filter (fun cd => cd == some 200)).length
            failed_requests := num - (codes.filter (fun cd => cd == some 200)).length
            average_response_time := 0, median_response_time := 0
            p95_response_time := 0, min_response_time := 0
            max_response_time := 0 }) ∧
    (∀ x : ℚ, load_test_stats num c [x] codes =
      .error "must have at least two data points") ∧
    (∀ data : List ℚ, 2 ≤ data.length →
      (load_test_stats num c data codes).isOk = true) := by
  refine ⟨by simp [load_test_stats], ?_, ?_⟩
  · intro x
    simp [load_test_stats, quantiles]
  · intro data h2
    cases data with
    | nil => simp at h2
    | cons x xs =>
      simp only [load_test_stats, List.isEmpty_cons, Bool.false_eq_true, if_false,
        quantiles]
      rw [if_neg (by norm_num), if_neg (by omega)]
      rfl

/-- C10 witness: the theorem applied at a one-sample batch and a two-sample
batch. -/
theorem load_test_stats_sample_size_witness :
    load_test_stats 10 2 [(1 : ℚ)] [some 200] =
      .error "must have at least two data points" ∧
    (load_test_stats 10 2 [(1 : ℚ), 2] [some 200]).isOk = true :=
  ⟨(load_test_stats_sample_size 10 2 [some 200]).2.1 1,
   (load_test_stats_sample_size 10 2 [some 200]).2.2 [1, 2] (by decide)⟩

end OMon
